import Mathlib

/-!
Shallow embedding of the Python client in
src/backend/docs/examples/python-examples.py: the HTTP wrapper class
MemeCoinAnalyzerAPI, the WebSocketClient class, and the
retry_with_backoff helper from error_handling_example.

Conventions of the embedding:
- Parsed JSON values (what json.loads produces and what response.json
  returns) are modelled by the inductive type Json below.
- Python dictionaries with string keys are association lists; dict
  assignment is dict_set, dict lookup / the get method is alookup.
- Side effects are made explicit: printed lines come back as a list of
  strings, sent WebSocket messages as a list of Json values, and a
  Python exception escaping a function is an Except.error result.
- The network is a parameter: a function from (method, url, kwargs) to
  the HttpResponse the requests session returns for that call.  The
  kwargs forwarded to session.request (json bodies, query params) are
  carried as an association list of Json values.
-/

/-- Parsed JSON values, the data model of every payload in the file. -/
inductive Json where
  | null
  | bool (b : Bool)
  | num (n : Int)
  | str (s : String)
  | arr (elems : List Json)
  | obj (fields : List (String × Json))

/-- Python truthiness of a parsed JSON value. -/
def Json.truthy : Json → Bool
  | .null => false
  | .bool b => b
  | .num n => n != 0
  | .str s => s != ""
  | .arr es => !es.isEmpty
  | .obj fs => !fs.isEmpty

/-- Truthiness of an optional value, with Python None being falsy. -/
def truthyOpt : Option Json → Bool
  | none => false
  | some j => j.truthy

/-- Truthiness of an optional string argument, with None and the empty
string falsy, as in the Python conditions on token and coin_id. -/
def truthyStr : Option String → Bool
  | none => false
  | some s => s != ""

/-- First-match lookup in an association list, the model of Python dict
access (parsed JSON objects are treated as finite maps). -/
def alookup {β : Type} : List (String × β) → String → Option β
  | [], _ => none
  | (k, v) :: rest, key => if k = key then some v else alookup rest key

/-- Dict assignment d[k] = v: overwrite the existing binding or append. -/
def dict_set {β : Type} : List (String × β) → String → β → List (String × β)
  | [], k, v => [(k, v)]
  | (k0, v0) :: rest, k, v =>
      if k0 = k then (k, v) :: rest else (k0, v0) :: dict_set rest k v

/-- The str() conversion used by Python f-strings, on the values this
file can feed to one.  The rendering of containers is abstracted. -/
def pyStr : Json → String
  | .null => "None"
  | .bool true => "True"
  | .bool false => "False"
  | .num n => toString n
  | .str s => s
  | .arr _ => "<list>"
  | .obj _ => "<dict>"

/-- str() of an optional value, with Python None printed as None. -/
def pyShow : Option Json → String
  | none => "None"
  | some j => pyStr j

/-- Python exceptions that can escape the modelled functions. -/
inductive PyErr where
  | attributeError
  | typeError
  | keyError (key : String)
deriving DecidableEq

/-- The part of a requests Response the client looks at: the status
code, the body text, and the parse of the body as JSON (none when the
body is not valid JSON, in which case response.json() raises). -/
structure HttpResponse where
  status_code : Nat
  text : String
  jsonBody : Option Json

/-- The requests exceptions _make_request re-raises. -/
inductive ReqError where
  | httpError (status : Nat) (text : String)
  | requestError

/-- Outcome of one _make_request call: the lines it printed and either
the parsed JSON body or the re-raised exception. -/
structure ReqOut where
  printed : List String
  result : Except ReqError Json

/-- The network: the HttpResponse the session returns for a given
method, url and kwargs.  Failures that produce no response at all
(connection errors) are outside the claims and are not modelled. -/
def Net : Type := String → String → List (String × Json) → HttpResponse

/-- The response carries a status raise_for_status accepts and a body
that parses as the JSON value j: exactly the case in which
_make_request returns normally, with j as its value. -/
def successResp (r : HttpResponse) (j : Json) : Prop :=
  ¬(400 ≤ r.status_code ∧ r.status_code < 600) ∧ r.jsonBody = some j

namespace MemeCoinAnalyzerAPI

/-- Mutable state of a MemeCoinAnalyzerAPI instance: the base url from
its config, self.token, and the session headers. -/
structure ApiState where
  base_url : String
  token : Option String
  headers : List (String × String)

/-- The default headers installed by the constructor. -/
def default_headers : List (String × String) :=
  [("Content-Type", "application/json"),
   ("User-Agent", "MemeCoinAnalyzer-Python-Client/1.0")]

/-- set_token: store the token and set the Authorization header to
"Bearer " followed by the token. -/
def set_token (st : ApiState) (token : String) : ApiState :=
  { st with
    token := some token,
    headers := dict_set st.headers "Authorization" ("Bearer " ++ token) }

/-- The constructor: record the token, install the default headers, and
call set_token only when the token argument is truthy. -/
def api_init (base_url : String) (token : Option String) : ApiState :=
  let st : ApiState := ⟨base_url, token, default_headers⟩
  match token with
  | some t => if t = "" then st else set_token st t
  | none => st

/-- _make_request: build the url, issue the request with the session
headers attached (the first component of the result), then
raise_for_status and response.json().  raise_for_status of the requests
library raises HTTPError exactly for status codes 400 to 599; other
codes, 1xx and 3xx included, pass through.  A body that is not valid
JSON makes response.json() raise a RequestException, caught, printed
and re-raised by the second except clause. -/
def _make_request (st : ApiState) (net : Net) (method endpoint : String)
    (kwargs : List (String × Json)) : List (String × String) × ReqOut :=
  let url := st.base_url ++ endpoint
  let response := net method url kwargs
  (st.headers,
    if 400 ≤ response.status_code ∧ response.status_code < 600 then
      ⟨["HTTP Error " ++ toString response.status_code ++ ": " ++ response.text],
       Except.error (ReqError.httpError response.status_code response.text)⟩
    else
      match response.jsonBody with
      | some body => ⟨[], Except.ok body⟩
      | none => ⟨["Request Error"], Except.error ReqError.requestError⟩)

/-- The kwargs login passes: json with the email and password fields. -/
def login_kwargs (email password : String) : List (String × Json) :=
  [("json", Json.obj [("email", Json.str email), ("password", Json.str password)])]

/-- Errors escaping login or register: a re-raised requests exception
or a Python exception from the token extraction. -/
inductive ApiErr where
  | req (e : ReqError)
  | py (e : PyErr)

/-- The conditional shared by register and login:
if result.get("success") and "data" in result:
    self.set_token(result["data"]["token"])
Subscripting a non-dict raises TypeError, a dict without the token key
raises KeyError, and a non-dict result makes the get call raise
AttributeError. -/
def store_token_if_success (st : ApiState) (result : Json) :
    Except PyErr ApiState :=
  match result with
  | .obj fields =>
    match truthyOpt (alookup fields "success"), alookup fields "data" with
    | true, some d =>
      match d with
      | .obj dfields =>
        match alookup dfields "token" with
        | some tok => .ok (set_token st (pyStr tok))
        | none => .error (.keyError "token")
      | _ => .error .typeError
    | _, _ => .ok st
  | _ => .error .attributeError

/-- login: POST the credentials, store the token on success responses
that carry one, and return the parsed response.  The result is the new
state, the printed lines, and the returned value or escaped error. -/
def login (st : ApiState) (net : Net) (email password : String) :
    ApiState × List String × Except ApiErr Json :=
  let out := (_make_request st net "POST" "/api/v1/auth/login"
      (login_kwargs email password)).2
  match out.result with
  | .error e => (st, out.printed, .error (ApiErr.req e))
  | .ok result =>
    match store_token_if_success st result with
    | .ok st2 => (st2, out.printed, .ok result)
    | .error e => (st, out.printed, .error (ApiErr.py e))

/-- register: POST the user data, then the same token handling and
return value as login. -/
def register (st : ApiState) (net : Net) (user_data : Json) :
    ApiState × List String × Except ApiErr Json :=
  let out := (_make_request st net "POST" "/api/v1/auth/register"
      [("json", user_data)]).2
  match out.result with
  | .error e => (st, out.printed, .error (ApiErr.req e))
  | .ok result =>
    match store_token_if_success st result with
    | .ok st2 => (st2, out.printed, .ok result)
    | .error e => (st, out.printed, .error (ApiErr.py e))

/-- get_profile: GET the profile and return the body unchanged. -/
def get_profile (st : ApiState) (net : Net) :
    List (String × String) × ReqOut :=
  _make_request st net "GET" "/api/v1/auth/profile" []

/-- update_preferences: PUT the preferences and return the body. -/
def update_preferences (st : ApiState) (net : Net) (preferences : Json) :
    List (String × String) × ReqOut :=
  _make_request st net "PUT" "/api/v1/auth/preferences" [("json", preferences)]

/-- get_coins: GET the coin list with the given query params. -/
def get_coins (st : ApiState) (net : Net) (params : Json) :
    List (String × String) × ReqOut :=
  _make_request st net "GET" "/api/v1/coins" [("params", params)]

/-- get_coin_by_id: GET one coin by numeric id. -/
def get_coin_by_id (st : ApiState) (net : Net) (coin_id : Int) :
    List (String × String) × ReqOut :=
  _make_request st net "GET" ("/api/v1/coins/" ++ toString coin_id) []

/-- get_coin_by_address: GET one coin by contract address. -/
def get_coin_by_address (st : ApiState) (net : Net) (address : String) :
    List (String × String) × ReqOut :=
  _make_request st net "GET" ("/api/v1/coins/address/" ++ address) []

/-- create_coin: POST a new coin. -/
def create_coin (st : ApiState) (net : Net) (coin_data : Json) :
    List (String × String) × ReqOut :=
  _make_request st net "POST" "/api/v1/coins" [("json", coin_data)]

/-- search_coins: GET the search endpoint with q set to the query. -/
def search_coins (st : ApiState) (net : Net) (query : String) :
    List (String × String) × ReqOut :=
  _make_request st net "GET" "/api/v1/coins/search"
    [("params", Json.obj [("q", Json.str query)])]

/-- get_price_history: GET the price history of a coin. -/
def get_price_history (st : ApiState) (net : Net) (coin_id : Int)
    (params : Json) : List (String × String) × ReqOut :=
  _make_request st net "GET"
    ("/api/v1/coins/" ++ toString coin_id ++ "/price-history")
    [("params", params)]

/-- get_risk_assessment: GET the risk assessment of a coin. -/
def get_risk_assessment (st : ApiState) (net : Net) (coin_id : Int) :
    List (String × String) × ReqOut :=
  _make_request st net "GET" ("/api/v1/risk-assessment/" ++ toString coin_id) []

/-- get_portfolio: GET the user portfolio. -/
def get_portfolio (st : ApiState) (net : Net) :
    List (String × String) × ReqOut :=
  _make_request st net "GET" "/api/v1/portfolio" []

/-- add_to_portfolio: POST a portfolio item. -/
def add_to_portfolio (st : ApiState) (net : Net) (portfolio_item : Json) :
    List (String × String) × ReqOut :=
  _make_request st net "POST" "/api/v1/portfolio" [("json", portfolio_item)]

/-- update_portfolio_item: PUT updates for one portfolio item. -/
def update_portfolio_item (st : ApiState) (net : Net) (item_id : Int)
    (updates : Json) : List (String × String) × ReqOut :=
  _make_request st net "PUT" ("/api/v1/portfolio/" ++ toString item_id)
    [("json", updates)]

/-- remove_from_portfolio: DELETE one portfolio item. -/
def remove_from_portfolio (st : ApiState) (net : Net) (item_id : Int) :
    List (String × String) × ReqOut :=
  _make_request st net "DELETE" ("/api/v1/portfolio/" ++ toString item_id) []

/-- get_alerts: GET the user alerts. -/
def get_alerts (st : ApiState) (net : Net) :
    List (String × String) × ReqOut :=
  _make_request st net "GET" "/api/v1/alerts" []

/-- create_alert: POST a new alert. -/
def create_alert (st : ApiState) (net : Net) (alert_data : Json) :
    List (String × String) × ReqOut :=
  _make_request st net "POST" "/api/v1/alerts" [("json", alert_data)]

/-- update_alert: PUT updates for one alert. -/
def update_alert (st : ApiState) (net : Net) (alert_id : Int)
    (updates : Json) : List (String × String) × ReqOut :=
  _make_request st net "PUT" ("/api/v1/alerts/" ++ toString alert_id)
    [("json", updates)]

/-- delete_alert: DELETE one alert. -/
def delete_alert (st : ApiState) (net : Net) (alert_id : Int) :
    List (String × String) × ReqOut :=
  _make_request st net "DELETE" ("/api/v1/alerts/" ++ toString alert_id) []

end MemeCoinAnalyzerAPI

namespace WebSocketClient

/-- Mutable state of a WebSocketClient instance, parameterised over the
type H of handler callbacks (handlers stay abstract; the embedding only
records which handler is invoked and on what argument).  The ws field
records whether self.ws holds a socket object (truthy) or None. -/
structure WsState (H : Type) where
  ws_url : String
  token : Option String
  ws : Bool
  is_connected : Bool
  message_handlers : List (String × H)

/-- The constructor: store the url and token, no socket yet, not
connected, no handlers. -/
def ws_client_init (H : Type) (ws_url : String) (token : Option String) :
    WsState H :=
  ⟨ws_url, token, false, false, []⟩

/-- on_message: register a handler for one message type (dict
assignment, so a second registration for the same type overwrites). -/
def on_message {H : Type} (st : WsState H) (message_type : String)
    (handler : H) : WsState H :=
  { st with message_handlers := dict_set st.message_handlers message_type handler }

/-- send_message: send the JSON-encoded message only when a socket
object exists and is_connected holds; otherwise print a notice and send
nothing.  The result is (messages sent, lines printed); json.dumps is
modelled by sending the Json value itself. -/
def send_message {H : Type} (st : WsState H) (message : Json) :
    List Json × List String :=
  if st.ws && st.is_connected then ([message], [])
  else ([], ["WebSocket not connected"])

/-- on_open: print the banner, set is_connected, and send the auth
message only when the stored token is truthy.  The result is the new
state, the messages sent and the lines printed. -/
def on_open {H : Type} (st : WsState H) : WsState H × List Json × List String :=
  let st1 : WsState H := { st with is_connected := true }
  match st.token with
  | some t =>
    if t = "" then (st1, [], ["WebSocket connected"])
    else
      let sp := send_message st1 (Json.obj [("type", Json.str "auth"), ("token", Json.str t)])
      (st1, sp.1, "WebSocket connected" :: sp.2)
  | none => (st1, [], ["WebSocket connected"])

/-- Result of one on_message_received call that did not raise: the
lines printed and the handler invocations made, each recorded as the
handler together with the whole parsed message passed to it. -/
structure RecvOut (H : Type) where
  printed : List String
  calls : List (H × Json)

/-- True when looking the value up in a dict cannot raise TypeError:
parsed JSON lists and objects are unhashable, everything else this file
can produce is hashable. -/
def hashable_type_val : Option Json → Bool
  | some (.arr _) => false
  | some (.obj _) => false
  | _ => true

/-- on_message_received: json.loads the text (its outcome is passed in
as an Except, the error side carrying the decode error text), read the
type field with data.get, print the type, then dispatch to the
registered handler or print the no-handler line.  Only JSONDecodeError
is caught: data.get on a non-dict raises AttributeError and a dict
membership test on an unhashable type value raises TypeError, both
escaping the callback (lines printed before an escaping exception are
not tracked).  Handler keys are the strings registered by on_message,
so a non-string hashable type value never matches one. -/
def on_message_received {H : Type} (st : WsState H)
    (loads : Except String Json) : Except PyErr (RecvOut H) :=
  match loads with
  | .error e => .ok ⟨["Failed to parse WebSocket message: " ++ e], []⟩
  | .ok data =>
    match data with
    | .obj fields =>
      let message_type := alookup fields "type"
      let received_line := "Received message: " ++ pyShow message_type
      match message_type with
      | some (.arr _) => .error .typeError
      | some (.obj _) => .error .typeError
      | some (.str s) =>
        match alookup st.message_handlers s with
        | some handler => .ok ⟨[received_line], [(handler, data)]⟩
        | none =>
          .ok ⟨[received_line, "No handler for message type: " ++ pyShow message_type], []⟩
      | _ =>
        .ok ⟨[received_line, "No handler for message type: " ++ pyShow message_type], []⟩
    | _ => .error .attributeError

/-- subscribe: build the message with type subscribe and the channel,
add coinId only when the coin_id argument is truthy, and pass it to
send_message. -/
def subscribe {H : Type} (st : WsState H) (channel : String)
    (coin_id : Option String) : List Json × List String :=
  let message := Json.obj
    (("type", Json.str "subscribe") :: ("channel", Json.str channel) ::
      (match coin_id with
       | some c => if c = "" then [] else [("coinId", Json.str c)]
       | none => []))
  send_message st message

end WebSocketClient

/-- Trace of one retry_with_backoff run: how many times func was
called, the sleeps performed in order, and the outcome (none only in
the vacuous case of a loop that runs zero times, where the Python
function falls through and returns None). -/
structure RetryTrace (E A : Type) where
  calls : Nat
  sleeps : List Nat
  result : Option (Except E A)

/-- The retry loop of retry_with_backoff from attempt upwards: call
func; on success return its value; on failure re-raise when this was
attempt max_retries, otherwise sleep base_delay * 2 ^ (attempt - 1) and
continue.  func is modelled as a map from the attempt number to the
outcome of calling it then. -/
def retry_from {E A : Type} (f : Nat → Except E A)
    (base_delay max_retries attempt : Nat) : RetryTrace E A :=
  if _h : max_retries < attempt then ⟨0, [], none⟩
  else
    match f attempt with
    | .ok a => ⟨1, [], some (.ok a)⟩
    | .error e =>
      if attempt = max_retries then ⟨1, [], some (.error e)⟩
      else
        let delay := base_delay * 2 ^ (attempt - 1)
        let rest := retry_from f base_delay max_retries (attempt + 1)
        ⟨rest.calls + 1, delay :: rest.sleeps, rest.result⟩
termination_by max_retries + 1 - attempt
decreasing_by omega

/-- retry_with_backoff: run the loop for attempt in
range(1, max_retries + 1). -/
def retry_with_backoff {E A : Type} (f : Nat → Except E A)
    (max_retries base_delay : Nat) : RetryTrace E A :=
  retry_from f base_delay max_retries 1

/-- Whether a call outcome is a success (no exception). -/
def is_ok {E A : Type} : Except E A → Bool
  | .ok _ => true
  | .error _ => false

/-- A network returning the same response to every request, used to
instantiate the theorems at concrete inputs. -/
def netConst (r : HttpResponse) : Net := fun _ _ _ => r

/-- A freshly constructed client with the default config and no token. -/
def api0 : MemeCoinAnalyzerAPI.ApiState :=
  MemeCoinAnalyzerAPI.api_init "http://localhost:3001" none

/-- A 304 Not Modified response whose body parses as JSON null. -/
def resp304 : HttpResponse := ⟨304, "", some Json.null⟩

/-- A 404 response with a plain-text body. -/
def resp404 : HttpResponse := ⟨404, "Not Found", none⟩

/-- A 200 response whose body parses as the JSON number 7. -/
def respOkNum : HttpResponse := ⟨200, "", some (Json.num 7)⟩

/-- A 200 login response with a truthy success flag and a data object
that lacks the token key. -/
def resp_no_token : HttpResponse :=
  ⟨200, "", some (Json.obj [("success", Json.bool true), ("data", Json.obj [])])⟩

/-- The body of a 200 login response carrying a token. -/
def body_with_token : Json :=
  Json.obj [("success", Json.bool true), ("data", Json.obj [("token", Json.str "T")])]

/-- A 200 login response carrying a token. -/
def resp_with_token : HttpResponse := ⟨200, "", some body_with_token⟩

/-- A freshly constructed WebSocket client: no socket, not connected. -/
def ws_disc : WebSocketClient.WsState Unit :=
  WebSocketClient.ws_client_init Unit "ws://localhost:3001/ws" none

/-- A connected WebSocket client without a token. -/
def ws_conn : WebSocketClient.WsState Unit :=
  ⟨"ws://localhost:3001/ws", none, true, true, []⟩

/-- A client whose socket just opened, with no token stored. -/
def ws_open_ready_no_token : WebSocketClient.WsState Unit :=
  ⟨"ws://localhost:3001/ws", none, true, false, []⟩

/-- A client whose socket just opened, with a token stored. -/
def ws_open_ready_token : WebSocketClient.WsState Unit :=
  ⟨"ws://localhost:3001/ws", some "tok", true, false, []⟩

/-- A connected client with one registered handler (handlers are
numbered, the registered one is handler 0). -/
def ws_with_handler : WebSocketClient.WsState Nat :=
  ⟨"ws://localhost:3001/ws", none, true, true, [("price_update", 0)]⟩

/-- Fields of a well-formed price_update message. -/
def msg_fields : List (String × Json) :=
  [("type", Json.str "price_update"), ("data", Json.null)]

/-- A function whose first call fails and whose second call succeeds,
used to instantiate the retry theorem. -/
def fEx : Nat → Except String Nat :=
  fun n => if n < 2 then Except.error "boom" else Except.ok n

/-! ## Theorems -/

/-- Dict assignment makes the assigned key map to the assigned value. -/
theorem alookup_dict_set {β : Type} (l : List (String × β)) (k : String) (v : β) :
    alookup (dict_set l k v) k = some v := by
  induction l with
  | nil => simp [dict_set, alookup]
  | cons hd tl ih =>
    obtain ⟨k0, v0⟩ := hd
    by_cases h : k0 = k
    · subst h; simp [dict_set, alookup]
    · simp [dict_set, alookup, h, ih]

/-- On a response whose status does not trigger raise_for_status and
whose body parses as j, _make_request prints nothing and returns j. -/
theorem make_request_success (st : MemeCoinAnalyzerAPI.ApiState) (net : Net)
    (method endpoint : String) (kwargs : List (String × Json)) (j : Json)
    (h : successResp (net method (st.base_url ++ endpoint) kwargs) j) :
    (MemeCoinAnalyzerAPI._make_request st net method endpoint kwargs).2 =
      ⟨[], Except.ok j⟩ := by
  obtain ⟨h1, h2⟩ := h
  simp only [MemeCoinAnalyzerAPI._make_request]
  rw [if_neg h1, h2]

/-- C1 (amended): _make_request raises, after printing the status code
and the body text, exactly when the response status code lies in
400..599 (the range on which raise_for_status of the requests library
raises); for every other status code, non-2xx informational and
redirect codes included, no HTTPError is raised: the parsed JSON body
is returned when the body parses, and a printed RequestException is
raised when it does not.  Whenever a value is returned it is the parsed
body, unmodified, of a response whose status is outside 400..599. -/
theorem make_request_error_handling (st : MemeCoinAnalyzerAPI.ApiState)
    (net : Net) (method endpoint : String) (kwargs : List (String × Json))
    (r : HttpResponse)
    (hr : net method (st.base_url ++ endpoint) kwargs = r) :
    (400 ≤ r.status_code ∧ r.status_code < 600 →
      (MemeCoinAnalyzerAPI._make_request st net method endpoint kwargs).2 =
        ⟨["HTTP Error " ++ toString r.status_code ++ ": " ++ r.text],
         Except.error (ReqError.httpError r.status_code r.text)⟩) ∧
    (¬(400 ≤ r.status_code ∧ r.status_code < 600) →
      (∀ j, r.jsonBody = some j →
        (MemeCoinAnalyzerAPI._make_request st net method endpoint kwargs).2 =
          ⟨[], Except.ok j⟩) ∧
      (r.jsonBody = none →
        (MemeCoinAnalyzerAPI._make_request st net method endpoint kwargs).2 =
          ⟨["Request Error"], Except.error ReqError.requestError⟩)) ∧
    (∀ j, (MemeCoinAnalyzerAPI._make_request st net method endpoint kwargs).2.result =
        Except.ok j →
      r.jsonBody = some j ∧ ¬(400 ≤ r.status_code ∧ r.status_code < 600)) := by
  refine ⟨?_, ?_, ?_⟩
  · intro h
    simp only [MemeCoinAnalyzerAPI._make_request, hr]
    rw [if_pos h]
  · intro h
    constructor
    · intro j hj
      simp only [MemeCoinAnalyzerAPI._make_request, hr]
      rw [if_neg h, hj]
    · intro hj
      simp only [MemeCoinAnalyzerAPI._make_request, hr]
      rw [if_neg h, hj]
  · intro j hj
    simp only [MemeCoinAnalyzerAPI._make_request, hr] at hj
    by_cases h : 400 ≤ r.status_code ∧ r.status_code < 600
    · rw [if_pos h] at hj
      simp at hj
    · rw [if_neg h] at hj
      refine ⟨?_, h⟩
      cases hb : r.jsonBody with
      | none => rw [hb] at hj; simp at hj
      | some b => rw [hb] at hj; simp at hj; rw [hj]

/-- C1 counterexample: a 304 Not Modified response has a non-2xx
status, yet _make_request prints nothing, raises nothing, and returns
the parsed body, refuting the claim that every non-2xx response
raises after printing. -/
theorem c1_counterexample_304 :
    (304 < 200 ∨ 299 < 304) ∧
    (MemeCoinAnalyzerAPI._make_request api0 (netConst resp304)
        "GET" "/api/v1/coins" []).2 = ⟨[], Except.ok Json.null⟩ :=
  ⟨by decide, rfl⟩

/-- C1 witness: at a 404 response the amended theorem yields the
printed line and the re-raised HTTPError. -/
theorem c1_witness :
    (400 ≤ 404 ∧ 404 < 600) ∧
    (MemeCoinAnalyzerAPI._make_request api0 (netConst resp404)
        "GET" "/api/v1/coins" []).2 =
      ⟨["HTTP Error 404: Not Found"],
       Except.error (ReqError.httpError 404 "Not Found")⟩ :=
  ⟨by decide,
   (make_request_error_handling api0 (netConst resp404) "GET" "/api/v1/coins"
      [] resp404 rfl).1 (by decide)⟩

/-- C5: on a message that is not valid JSON, on_message_received
catches the decode error, prints it, invokes no handler, and returns
normally. -/
theorem on_message_received_parse_failure (H : Type)
    (st : WebSocketClient.WsState H) (e : String) :
    WebSocketClient.on_message_received st (Except.error e) =
      Except.ok ⟨["Failed to parse WebSocket message: " ++ e], []⟩ := rfl

/-- C9: send_message sends exactly the given message when a socket
exists and is_connected holds, and otherwise sends nothing and prints
the not-connected notice; in both cases it returns normally. -/
theorem send_message_connected_guard (H : Type)
    (st : WebSocketClient.WsState H) (msg : Json) :
    (st.ws = true ∧ st.is_connected = true →
      WebSocketClient.send_message st msg = ([msg], [])) ∧
    (¬(st.ws = true ∧ st.is_connected = true) →
      WebSocketClient.send_message st msg = ([], ["WebSocket not connected"])) := by
  constructor
  · intro h
    simp [WebSocketClient.send_message, h.1, h.2]
  · intro h
    cases hws : st.ws <;> cases hic : st.is_connected <;>
      simp_all [WebSocketClient.send_message]

/-- C9 witness: a freshly constructed client is not connected, and
send_message only prints the notice. -/
theorem c9_witness :
    ¬(ws_disc.ws = true ∧ ws_disc.is_connected = true) ∧
    WebSocketClient.send_message ws_disc (Json.str "x") =
      ([], ["WebSocket not connected"]) :=
  ⟨by decide,
   (send_message_connected_guard Unit ws_disc (Json.str "x")).2 (by decide)⟩

/-- C6 (amended): after set_token the Authorization header is exactly
"Bearer " followed by the token, every request issued from the updated
state carries that header, and constructing the client with a
non-empty token is the same as constructing it without one and then
calling set_token. -/
theorem set_token_authorization (st : MemeCoinAnalyzerAPI.ApiState) (t : String) :
    alookup (MemeCoinAnalyzerAPI.set_token st t).headers "Authorization" =
      some ("Bearer " ++ t) ∧
    (∀ (net : Net) (method endpoint : String) (kwargs : List (String × Json)),
      alookup (MemeCoinAnalyzerAPI._make_request (MemeCoinAnalyzerAPI.set_token st t)
          net method endpoint kwargs).1 "Authorization" = some ("Bearer " ++ t)) ∧
    (t ≠ "" → ∀ base_url,
      MemeCoinAnalyzerAPI.api_init base_url (some t) =
        MemeCoinAnalyzerAPI.set_token (MemeCoinAnalyzerAPI.api_init base_url none) t) := by
  refine ⟨?_, ?_, ?_⟩
  · simp only [MemeCoinAnalyzerAPI.set_token]
    exact alookup_dict_set st.headers "Authorization" ("Bearer " ++ t)
  · intro net method endpoint kwargs
    simp only [MemeCoinAnalyzerAPI._make_request, MemeCoinAnalyzerAPI.set_token]
    exact alookup_dict_set st.headers "Authorization" ("Bearer " ++ t)
  · intro ht base_url
    simp [MemeCoinAnalyzerAPI.api_init, MemeCoinAnalyzerAPI.set_token, ht]

/-- C6 counterexample: constructing the client with the empty token
leaves the Authorization header unset, while calling set_token with the
empty token sets it to "Bearer ", so construction with a token is not
always the same as set_token. -/
theorem c6_counterexample_empty_token :
    alookup (MemeCoinAnalyzerAPI.api_init "http://localhost:3001" (some "")).headers
        "Authorization" = none ∧
    alookup (MemeCoinAnalyzerAPI.set_token
        (MemeCoinAnalyzerAPI.api_init "http://localhost:3001" none) "").headers
        "Authorization" = some "Bearer " :=
  ⟨rfl, rfl⟩

/-- C6 witness: at the non-empty token "abc" both the header equation
and the constructor equation given by the theorem hold. -/
theorem c6_witness :
    ("abc" ≠ "") ∧
    MemeCoinAnalyzerAPI.api_init "http://localhost:3001" (some "abc") =
      MemeCoinAnalyzerAPI.set_token
        (MemeCoinAnalyzerAPI.api_init "http://localhost:3001" none) "abc" ∧
    alookup (MemeCoinAnalyzerAPI.set_token api0 "abc").headers "Authorization" =
      some "Bearer abc" :=
  ⟨by decide,
   (set_token_authorization api0 "abc").2.2 (by decide) "http://localhost:3001",
   (set_token_authorization api0 "abc").1⟩

/-- C7: on a connected client, subscribe sends exactly one message,
whose type field is subscribe, whose channel field is the given
channel, and whose coinId field is present exactly when the coin_id
argument is supplied and truthy. -/
theorem subscribe_message_shape (H : Type) (st : WebSocketClient.WsState H)
    (channel : String) (coin_id : Option String)
    (hws : st.ws = true) (hconn : st.is_connected = true) :
    ∃ flds, WebSocketClient.subscribe st channel coin_id = ([Json.obj flds], []) ∧
      alookup flds "type" = some (Json.str "subscribe") ∧
      alookup flds "channel" = some (Json.str channel) ∧
      alookup flds "coinId" =
        (match coin_id with
         | some c => if c = "" then none else some (Json.str c)
         | none => none) := by
  cases coin_id with
  | none =>
    refine ⟨[("type", Json.str "subscribe"), ("channel", Json.str channel)],
      ?_, rfl, ?_, ?_⟩
    · simp [WebSocketClient.subscribe, WebSocketClient.send_message, hws, hconn]
    · simp [alookup]
    · simp [alookup]
  | some c =>
    by_cases hc : c = ""
    · subst hc
      refine ⟨[("type", Json.str "subscribe"), ("channel", Json.str channel)],
        ?_, rfl, ?_, ?_⟩
      · simp [WebSocketClient.subscribe, WebSocketClient.send_message, hws, hconn]
      · simp [alookup]
      · simp [alookup]
    · refine ⟨[("type", Json.str "subscribe"), ("channel", Json.str channel),
        ("coinId", Json.str c)], ?_, rfl, ?_, ?_⟩
      · simp [WebSocketClient.subscribe, WebSocketClient.send_message, hws, hconn, hc]
      · simp [alookup]
      · simp [alookup, hc]

/-- C7 witness: on a connected client, subscribing to price_updates
with coin id 1 sends the expected message. -/
theorem c7_witness :
    ws_conn.ws = true ∧ ws_conn.is_connected = true ∧
    ∃ flds, WebSocketClient.subscribe ws_conn "price_updates" (some "1") =
        ([Json.obj flds], []) ∧
      alookup flds "type" = some (Json.str "subscribe") ∧
      alookup flds "channel" = some (Json.str "price_updates") ∧
      alookup flds "coinId" = some (Json.str "1") :=
  ⟨rfl, rfl,
   subscribe_message_shape Unit ws_conn "price_updates" (some "1") rfl rfl⟩

/-- C3 (amended): whenever the connection opens, on_open marks the
client connected, and it sends the auth message with the stored token
exactly when that token is truthy: with a token set and non-empty the
single auth message goes out, with no truthy token nothing is sent. -/
theorem on_open_auth (H : Type) (st : WebSocketClient.WsState H) :
    (WebSocketClient.on_open st).1.is_connected = true ∧
    (∀ t, st.ws = true → st.token = some t → t ≠ "" →
      (WebSocketClient.on_open st).2.1 =
        [Json.obj [("type", Json.str "auth"), ("token", Json.str t)]]) ∧
    (truthyStr st.token = false → (WebSocketClient.on_open st).2.1 = []) := by
  refine ⟨?_, ?_, ?_⟩
  · cases htok : st.token with
    | none => simp [WebSocketClient.on_open, htok]
    | some t =>
      by_cases ht : t = ""
      · simp [WebSocketClient.on_open, htok, ht]
      · simp [WebSocketClient.on_open, htok, ht, WebSocketClient.send_message]
  · intro t hws htok ht
    simp [WebSocketClient.on_open, htok, ht, WebSocketClient.send_message, hws]
  · intro hfalse
    cases htok : st.token with
    | none => simp [WebSocketClient.on_open, htok]
    | some t =>
      rw [htok] at hfalse
      simp [truthyStr] at hfalse
      simp [WebSocketClient.on_open, htok, hfalse]

/-- C3 counterexample: a client without a token whose socket just
opened sends nothing from on_open, refuting the claim that the auth
message is sent on every open. -/
theorem c3_counterexample_no_token :
    (WebSocketClient.on_open ws_open_ready_no_token).2.1 = [] := rfl

/-- C3 witness: with the non-empty token "tok" stored, on_open sends
the auth message carrying it. -/
theorem c3_witness :
    ws_open_ready_token.ws = true ∧ ws_open_ready_token.token = some "tok" ∧
    "tok" ≠ "" ∧
    (WebSocketClient.on_open ws_open_ready_token).2.1 =
      [Json.obj [("type", Json.str "auth"), ("token", Json.str "tok")]] :=
  ⟨rfl, rfl, by decide,
   (on_open_auth Unit ws_open_ready_token).2.1 "tok" rfl rfl (by decide)⟩

/-- C2 (amended): on a message parsing as a JSON object whose type
value is hashable, on_message_received calls exactly the handler
registered for the string value of the type field, passing it the
whole parsed message; when the type value is absent, not a string, or
has no registered handler, no handler is called, the no-handler line is
printed, and the call returns without error.  A handler registered by
on_message is the one found for its type. -/
theorem on_message_received_dispatch (H : Type) (st : WebSocketClient.WsState H)
    (fields : List (String × Json))
    (hh : WebSocketClient.hashable_type_val (alookup fields "type") = true) :
    (∀ s handler, alookup fields "type" = some (Json.str s) →
        alookup st.message_handlers s = some handler →
        WebSocketClient.on_message_received st (Except.ok (Json.obj fields)) =
          Except.ok ⟨["Received message: " ++ s], [(handler, Json.obj fields)]⟩) ∧
    ((∀ s, alookup fields "type" = some (Json.str s) →
        alookup st.message_handlers s = none) →
      WebSocketClient.on_message_received st (Except.ok (Json.obj fields)) =
        Except.ok ⟨["Received message: " ++ pyShow (alookup fields "type"),
                    "No handler for message type: " ++ pyShow (alookup fields "type")],
                   []⟩) ∧
    (∀ (message_type : String) (handler : H),
        alookup (WebSocketClient.on_message st message_type handler).message_handlers
          message_type = some handler) := by
  refine ⟨?_, ?_, ?_⟩
  · intro s handler hs hreg
    simp [WebSocketClient.on_message_received, hs, hreg, pyShow, pyStr]
  · intro hnone
    cases hft : alookup fields "type" with
    | none => simp [WebSocketClient.on_message_received, hft]
    | some j =>
      cases j with
      | null => simp [WebSocketClient.on_message_received, hft]
      | bool b => simp [WebSocketClient.on_message_received, hft]
      | num n => simp [WebSocketClient.on_message_received, hft]
      | str s =>
        have hr := hnone s hft
        simp [WebSocketClient.on_message_received, hft, hr]
      | arr es => rw [hft] at hh; simp [WebSocketClient.hashable_type_val] at hh
      | obj fs => rw [hft] at hh; simp [WebSocketClient.hashable_type_val] at hh
  · intro message_type handler
    simp only [WebSocketClient.on_message]
    exact alookup_dict_set st.message_handlers message_type handler

/-- C2 counterexample: the text of an empty JSON array parses as JSON,
yet on_message_received raises AttributeError (the get call on a
non-dict), so the message is not dropped without error. -/
theorem c2_counterexample_array_message :
    WebSocketClient.on_message_received ws_disc (Except.ok (Json.arr [])) =
      Except.error PyErr.attributeError := rfl

/-- C2 witness: a registered price_update handler receives the whole
parsed price_update message, and nothing else is called. -/
theorem c2_witness :
    WebSocketClient.hashable_type_val (alookup msg_fields "type") = true ∧
    WebSocketClient.on_message_received ws_with_handler
        (Except.ok (Json.obj msg_fields)) =
      Except.ok ⟨["Received message: price_update"], [(0, Json.obj msg_fields)]⟩ :=
  ⟨rfl,
   (on_message_received_dispatch Nat ws_with_handler msg_fields rfl).1
     "price_update" 0 rfl rfl⟩

/-- Case analysis of the shared token-storing conditional of register
and login, on an object response body. -/
theorem store_token_cases (st : MemeCoinAnalyzerAPI.ApiState)
    (fields : List (String × Json)) :
    (∀ dfields tok, truthyOpt (alookup fields "success") = true →
        alookup fields "data" = some (Json.obj dfields) →
        alookup dfields "token" = some tok →
        MemeCoinAnalyzerAPI.store_token_if_success st (Json.obj fields) =
          Except.ok (MemeCoinAnalyzerAPI.set_token st (pyStr tok))) ∧
    ((truthyOpt (alookup fields "success") = false ∨ alookup fields "data" = none) →
        MemeCoinAnalyzerAPI.store_token_if_success st (Json.obj fields) =
          Except.ok st) ∧
    (∀ d, truthyOpt (alookup fields "success") = true →
        alookup fields "data" = some d →
        (∀ dfields, d = Json.obj dfields → alookup dfields "token" = none) →
        ∃ e, MemeCoinAnalyzerAPI.store_token_if_success st (Json.obj fields) =
          Except.error e) := by
  refine ⟨?_, ?_, ?_⟩
  · intro dfields tok h1 h2 h3
    simp [MemeCoinAnalyzerAPI.store_token_if_success, h1, h2, h3]
  · intro h
    rcases h with h | h
    · simp [MemeCoinAnalyzerAPI.store_token_if_success, h]
    · cases hs : truthyOpt (alookup fields "success") <;>
        simp [MemeCoinAnalyzerAPI.store_token_if_success, hs, h]
  · intro d h1 h2 h3
    cases d with
    | obj dfields =>
      have h4 := h3 dfields rfl
      exact ⟨PyErr.keyError "token",
        by simp [MemeCoinAnalyzerAPI.store_token_if_success, h1, h2, h4]⟩
    | null => exact ⟨PyErr.typeError,
        by simp [MemeCoinAnalyzerAPI.store_token_if_success, h1, h2]⟩
    | bool b => exact ⟨PyErr.typeError,
        by simp [MemeCoinAnalyzerAPI.store_token_if_success, h1, h2]⟩
    | num n => exact ⟨PyErr.typeError,
        by simp [MemeCoinAnalyzerAPI.store_token_if_success, h1, h2]⟩
    | str s => exact ⟨PyErr.typeError,
        by simp [MemeCoinAnalyzerAPI.store_token_if_success, h1, h2]⟩
    | arr es => exact ⟨PyErr.typeError,
        by simp [MemeCoinAnalyzerAPI.store_token_if_success, h1, h2]⟩

/-- On a successful response with body j, login reduces to the
token-storing conditional followed by returning j. -/
theorem login_success_eq (st : MemeCoinAnalyzerAPI.ApiState) (net : Net)
    (email password : String) (j : Json)
    (h : successResp (net "POST" (st.base_url ++ "/api/v1/auth/login")
        (MemeCoinAnalyzerAPI.login_kwargs email password)) j) :
    MemeCoinAnalyzerAPI.login st net email password =
      (match MemeCoinAnalyzerAPI.store_token_if_success st j with
       | .ok st2 => (st2, [], Except.ok j)
       | .error e => (st, [], Except.error (MemeCoinAnalyzerAPI.ApiErr.py e))) := by
  have hm := make_request_success st net "POST" "/api/v1/auth/login"
    (MemeCoinAnalyzerAPI.login_kwargs email password) j h
  simp only [MemeCoinAnalyzerAPI.login, hm]

/-- On a successful response with body j, register reduces to the
token-storing conditional followed by returning j. -/
theorem register_success_eq (st : MemeCoinAnalyzerAPI.ApiState) (net : Net)
    (user_data : Json) (j : Json)
    (h : successResp (net "POST" (st.base_url ++ "/api/v1/auth/register")
        [("json", user_data)]) j) :
    MemeCoinAnalyzerAPI.register st net user_data =
      (match MemeCoinAnalyzerAPI.store_token_if_success st j with
       | .ok st2 => (st2, [], Except.ok j)
       | .error e => (st, [], Except.error (MemeCoinAnalyzerAPI.ApiErr.py e))) := by
  have hm := make_request_success st net "POST" "/api/v1/auth/register"
    [("json", user_data)] j h
  simp only [MemeCoinAnalyzerAPI.register, hm]

/-- C10 (amended): on a successful dict response, login and register
store the returned token (set_token on the client and on the session
headers) exactly when the response has a truthy success value, a data
entry, and that entry is a dict carrying a token key, and then return
the response unmodified; when success is falsy or data is absent the
state is left unchanged and the response is still returned unmodified;
when success is truthy and data is present but no token can be
extracted, a Python exception escapes and the state is left
unchanged. -/
theorem login_register_store_token (st : MemeCoinAnalyzerAPI.ApiState)
    (net : Net) (email password : String) (user_data : Json)
    (fields : List (String × Json))
    (hlog : successResp (net "POST" (st.base_url ++ "/api/v1/auth/login")
        (MemeCoinAnalyzerAPI.login_kwargs email password)) (Json.obj fields))
    (hreg : successResp (net "POST" (st.base_url ++ "/api/v1/auth/register")
        [("json", user_data)]) (Json.obj fields)) :
    (∀ dfields tok, truthyOpt (alookup fields "success") = true →
        alookup fields "data" = some (Json.obj dfields) →
        alookup dfields "token" = some tok →
        MemeCoinAnalyzerAPI.login st net email password =
          (MemeCoinAnalyzerAPI.set_token st (pyStr tok), [],
           Except.ok (Json.obj fields)) ∧
        MemeCoinAnalyzerAPI.register st net user_data =
          (MemeCoinAnalyzerAPI.set_token st (pyStr tok), [],
           Except.ok (Json.obj fields))) ∧
    ((truthyOpt (alookup fields "success") = false ∨
        alookup fields "data" = none) →
      MemeCoinAnalyzerAPI.login st net email password =
          (st, [], Except.ok (Json.obj fields)) ∧
      MemeCoinAnalyzerAPI.register st net user_data =
          (st, [], Except.ok (Json.obj fields))) ∧
    (∀ d, truthyOpt (alookup fields "success") = true →
        alookup fields "data" = some d →
        (∀ dfields, d = Json.obj dfields → alookup dfields "token" = none) →
        ∃ e1 e2,
          MemeCoinAnalyzerAPI.login st net email password =
            (st, [], Except.error (MemeCoinAnalyzerAPI.ApiErr.py e1)) ∧
          MemeCoinAnalyzerAPI.register st net user_data =
            (st, [], Except.error (MemeCoinAnalyzerAPI.ApiErr.py e2))) := by
  have hl := login_success_eq st net email password (Json.obj fields) hlog
  have hr2 := register_success_eq st net user_data (Json.obj fields) hreg
  have hs := store_token_cases st fields
  refine ⟨?_, ?_, ?_⟩
  · intro dfields tok h1 h2 h3
    rw [hl, hr2, hs.1 dfields tok h1 h2 h3]
    exact ⟨rfl, rfl⟩
  · intro h
    rw [hl, hr2, hs.2.1 h]
    exact ⟨rfl, rfl⟩
  · intro d h1 h2 h3
    obtain ⟨e, he⟩ := hs.2.2 d h1 h2 h3
    exact ⟨e, e, by rw [hl, he], by rw [hr2, he]⟩

/-- C10 counterexample: a success response whose data dict lacks the
token key makes login raise KeyError and return nothing, with the
state unchanged, refuting the claim that any truthy success with a
data key stores a token and returns the response. -/
theorem c10_counterexample_missing_token :
    MemeCoinAnalyzerAPI.login api0 (netConst resp_no_token) "a@example.com" "pw" =
      (api0, [], Except.error (MemeCoinAnalyzerAPI.ApiErr.py (PyErr.keyError "token"))) :=
  rfl

/-- C10 witness: a success response carrying a token makes login store
it and return the response unmodified. -/
theorem c10_witness :
    successResp resp_with_token body_with_token ∧
    MemeCoinAnalyzerAPI.login api0 (netConst resp_with_token) "a@example.com" "pw" =
      (MemeCoinAnalyzerAPI.set_token api0 "T", [], Except.ok body_with_token) := by
  have h : successResp resp_with_token body_with_token := ⟨by decide, rfl⟩
  refine ⟨h, ?_⟩
  exact ((login_register_store_token api0 (netConst resp_with_token)
      "a@example.com" "pw" Json.null
      [("success", Json.bool true), ("data", Json.obj [("token", Json.str "T")])]
      h h).1 [("token", Json.str "T")] (Json.str "T") rfl rfl rfl).1

/-- C8: every coin, portfolio, alert, risk-assessment and price-history
method forwards its call to _make_request and, on a successful
response, returns the parsed JSON body exactly as received, printing
nothing and applying no validation or transformation. -/
theorem api_methods_return_body_as_is (st : MemeCoinAnalyzerAPI.ApiState)
    (net : Net) :
    (∀ params j, successResp (net "GET" (st.base_url ++ "/api/v1/coins")
        [("params", params)]) j →
      (MemeCoinAnalyzerAPI.get_coins st net params).2 = ⟨[], Except.ok j⟩) ∧
    (∀ (coin_id : Int) j, successResp (net "GET"
        (st.base_url ++ ("/api/v1/coins/" ++ toString coin_id)) []) j →
      (MemeCoinAnalyzerAPI.get_coin_by_id st net coin_id).2 = ⟨[], Except.ok j⟩) ∧
    (∀ address j, successResp (net "GET"
        (st.base_url ++ ("/api/v1/coins/address/" ++ address)) []) j →
      (MemeCoinAnalyzerAPI.get_coin_by_address st net address).2 = ⟨[], Except.ok j⟩) ∧
    (∀ coin_data j, successResp (net "POST" (st.base_url ++ "/api/v1/coins")
        [("json", coin_data)]) j →
      (MemeCoinAnalyzerAPI.create_coin st net coin_data).2 = ⟨[], Except.ok j⟩) ∧
    (∀ query j, successResp (net "GET" (st.base_url ++ "/api/v1/coins/search")
        [("params", Json.obj [("q", Json.str query)])]) j →
      (MemeCoinAnalyzerAPI.search_coins st net query).2 = ⟨[], Except.ok j⟩) ∧
    (∀ (coin_id : Int) params j, successResp (net "GET"
        (st.base_url ++ ("/api/v1/coins/" ++ toString coin_id ++ "/price-history"))
        [("params", params)]) j →
      (MemeCoinAnalyzerAPI.get_price_history st net coin_id params).2 =
        ⟨[], Except.ok j⟩) ∧
    (∀ (coin_id : Int) j, successResp (net "GET"
        (st.base_url ++ ("/api/v1/risk-assessment/" ++ toString coin_id)) []) j →
      (MemeCoinAnalyzerAPI.get_risk_assessment st net coin_id).2 =
        ⟨[], Except.ok j⟩) ∧
    (∀ j, successResp (net "GET" (st.base_url ++ "/api/v1/portfolio") []) j →
      (MemeCoinAnalyzerAPI.get_portfolio st net).2 = ⟨[], Except.ok j⟩) ∧
    (∀ portfolio_item j, successResp (net "POST"
        (st.base_url ++ "/api/v1/portfolio") [("json", portfolio_item)]) j →
      (MemeCoinAnalyzerAPI.add_to_portfolio st net portfolio_item).2 =
        ⟨[], Except.ok j⟩) ∧
    (∀ (item_id : Int) updates j, successResp (net "PUT"
        (st.base_url ++ ("/api/v1/portfolio/" ++ toString item_id))
        [("json", updates)]) j →
      (MemeCoinAnalyzerAPI.update_portfolio_item st net item_id updates).2 =
        ⟨[], Except.ok j⟩) ∧
    (∀ (item_id : Int) j, successResp (net "DELETE"
        (st.base_url ++ ("/api/v1/portfolio/" ++ toString item_id)) []) j →
      (MemeCoinAnalyzerAPI.remove_from_portfolio st net item_id).2 =
        ⟨[], Except.ok j⟩) ∧
    (∀ j, successResp (net "GET" (st.base_url ++ "/api/v1/alerts") []) j →
      (MemeCoinAnalyzerAPI.get_alerts st net).2 = ⟨[], Except.ok j⟩) ∧
    (∀ alert_data j, successResp (net "POST" (st.base_url ++ "/api/v1/alerts")
        [("json", alert_data)]) j →
      (MemeCoinAnalyzerAPI.create_alert st net alert_data).2 = ⟨[], Except.ok j⟩) ∧
    (∀ (alert_id : Int) updates j, successResp (net "PUT"
        (st.base_url ++ ("/api/v1/alerts/" ++ toString alert_id))
        [("json", updates)]) j →
      (MemeCoinAnalyzerAPI.update_alert st net alert_id updates).2 =
        ⟨[], Except.ok j⟩) ∧
    (∀ (alert_id : Int) j, successResp (net "DELETE"
        (st.base_url ++ ("/api/v1/alerts/" ++ toString alert_id)) []) j →
      (MemeCoinAnalyzerAPI.delete_alert st net alert_id).2 = ⟨[], Except.ok j⟩) :=
  ⟨fun params j h => make_request_success st net "GET" "/api/v1/coins"
      [("params", params)] j h,
   fun coin_id j h => make_request_success st net "GET"
      ("/api/v1/coins/" ++ toString coin_id) [] j h,
   fun address j h => make_request_success st net "GET"
      ("/api/v1/coins/address/" ++ address) [] j h,
   fun coin_data j h => make_request_success st net "POST" "/api/v1/coins"
      [("json", coin_data)] j h,
   fun query j h => make_request_success st net "GET" "/api/v1/coins/search"
      [("params", Json.obj [("q", Json.str query)])] j h,
   fun coin_id params j h => make_request_success st net "GET"
      ("/api/v1/coins/" ++ toString coin_id ++ "/price-history")
      [("params", params)] j h,
   fun coin_id j h => make_request_success st net "GET"
      ("/api/v1/risk-assessment/" ++ toString coin_id) [] j h,
   fun j h => make_request_success st net "GET" "/api/v1/portfolio" [] j h,
   fun portfolio_item j h => make_request_success st net "POST" "/api/v1/portfolio"
      [("json", portfolio_item)] j h,
   fun item_id updates j h => make_request_success st net "PUT"
      ("/api/v1/portfolio/" ++ toString item_id) [("json", updates)] j h,
   fun item_id j h => make_request_success st net "DELETE"
      ("/api/v1/portfolio/" ++ toString item_id) [] j h,
   fun j h => make_request_success st net "GET" "/api/v1/alerts" [] j h,
   fun alert_data j h => make_request_success st net "POST" "/api/v1/alerts"
      [("json", alert_data)] j h,
   fun alert_id updates j h => make_request_success st net "PUT"
      ("/api/v1/alerts/" ++ toString alert_id) [("json", updates)] j h,
   fun alert_id j h => make_request_success st net "DELETE"
      ("/api/v1/alerts/" ++ toString alert_id) [] j h⟩

/-- C8 witness: with a 200 response whose body is the number 7,
get_coins returns exactly that body and prints nothing. -/
theorem c8_witness :
    successResp respOkNum (Json.num 7) ∧
    (MemeCoinAnalyzerAPI.get_coins api0 (netConst respOkNum) (Json.obj [])).2 =
      ⟨[], Except.ok (Json.num 7)⟩ :=
  ⟨⟨by decide, rfl⟩,
   (api_methods_return_body_as_is api0 (netConst respOkNum)).1
     (Json.obj []) (Json.num 7) ⟨by decide, rfl⟩⟩

/-- When the first success is at attempt b + 1 + n and every earlier
attempt from b + 1 on fails, the loop started at attempt b + 1 makes
n + 1 calls, sleeps base * 2 ^ (b + k) after the k-th failure, and
returns the successful outcome. -/
theorem retry_from_first_ok {E A : Type} (f : Nat → Except E A)
    (base maxR : Nat) :
    ∀ (n b : Nat), b + 1 + n ≤ maxR →
      (∀ j, b + 1 ≤ j → j < b + 1 + n → is_ok (f j) = false) →
      is_ok (f (b + 1 + n)) = true →
      retry_from f base maxR (b + 1) =
        ⟨n + 1, (List.range n).map (fun k => base * 2 ^ (b + k)),
         some (f (b + 1 + n))⟩ := by
  intro n
  induction n with
  | zero =>
    intro b hle _ hok
    rw [retry_from.eq_def, dif_neg (by omega)]
    cases hfa : f (b + 1) with
    | ok v => simp
    | error e =>
      rw [Nat.add_zero] at hok
      rw [hfa] at hok
      simp [is_ok] at hok
  | succ n ih =>
    intro b hle hfail hok
    have hfab : is_ok (f (b + 1)) = false := hfail (b + 1) (Nat.le_refl _) (by omega)
    cases hfa : f (b + 1) with
    | ok v => rw [hfa] at hfab; simp [is_ok] at hfab
    | error e =>
      rw [retry_from.eq_def, dif_neg (by omega), hfa]
      have e1 : b + 1 + 1 + n = b + 1 + (n + 1) := by omega
      have ih' := ih (b + 1) (by omega)
        (fun j hj1 hj2 => hfail j (by omega) (by omega))
        (by rw [e1]; exact hok)
      show (if b + 1 = maxR then (⟨1, [], some (Except.error e)⟩ : RetryTrace E A)
        else ⟨(retry_from f base maxR (b + 1 + 1)).calls + 1,
          base * 2 ^ (b + 1 - 1) :: (retry_from f base maxR (b + 1 + 1)).sleeps,
          (retry_from f base maxR (b + 1 + 1)).result⟩) = _
      rw [if_neg (show ¬ b + 1 = maxR by omega), ih']
      rw [RetryTrace.mk.injEq]
      refine ⟨rfl, ?_, by rw [e1]⟩
      rw [List.range_succ_eq_map, List.map_cons, List.map_map]
      congr 1
      show List.map (fun k => base * 2 ^ (b + 1 + k)) (List.range n) =
        List.map ((fun k => base * 2 ^ (b + k)) ∘ Nat.succ) (List.range n)
      refine List.map_congr_left ?_
      intro a ha
      show base * 2 ^ (b + 1 + a) = base * 2 ^ (b + (a + 1))
      have hba : b + 1 + a = b + (a + 1) := by omega
      rw [hba]

/-- When every attempt from b + 1 through max_retries fails, the loop
started at attempt b + 1 makes the remaining max_retries - b calls,
sleeps after each failure but the last, and re-raises the outcome of
the final attempt. -/
theorem retry_from_all_fail {E A : Type} (f : Nat → Except E A)
    (base maxR : Nat) :
    ∀ (n b : Nat), b + 1 + n = maxR →
      (∀ j, b + 1 ≤ j → j ≤ maxR → is_ok (f j) = false) →
      retry_from f base maxR (b + 1) =
        ⟨n + 1, (List.range n).map (fun k => base * 2 ^ (b + k)),
         some (f maxR)⟩ := by
  intro n
  induction n with
  | zero =>
    intro b hmax hfail
    rw [Nat.add_zero] at hmax
    have hfab : is_ok (f (b + 1)) = false := hfail (b + 1) (Nat.le_refl _) (by omega)
    cases hfa : f (b + 1) with
    | ok v => rw [hfa] at hfab; simp [is_ok] at hfab
    | error e =>
      rw [retry_from.eq_def, dif_neg (by omega), hfa]
      show (if b + 1 = maxR then (⟨1, [], some (Except.error e)⟩ : RetryTrace E A)
        else ⟨(retry_from f base maxR (b + 1 + 1)).calls + 1,
          base * 2 ^ (b + 1 - 1) :: (retry_from f base maxR (b + 1 + 1)).sleeps,
          (retry_from f base maxR (b + 1 + 1)).result⟩) = _
      rw [if_pos hmax, ← hmax, hfa]
      simp
  | succ n ih =>
    intro b hmax hfail
    have hfab : is_ok (f (b + 1)) = false := hfail (b + 1) (Nat.le_refl _) (by omega)
    cases hfa : f (b + 1) with
    | ok v => rw [hfa] at hfab; simp [is_ok] at hfab
    | error e =>
      rw [retry_from.eq_def, dif_neg (by omega), hfa]
      have ih' := ih (b + 1) (by omega) (fun j hj1 hj2 => hfail j (by omega) hj2)
      show (if b + 1 = maxR then (⟨1, [], some (Except.error e)⟩ : RetryTrace E A)
        else ⟨(retry_from f base maxR (b + 1 + 1)).calls + 1,
          base * 2 ^ (b + 1 - 1) :: (retry_from f base maxR (b + 1 + 1)).sleeps,
          (retry_from f base maxR (b + 1 + 1)).result⟩) = _
      rw [if_neg (show ¬ b + 1 = maxR by omega), ih']
      rw [RetryTrace.mk.injEq]
      refine ⟨rfl, ?_, rfl⟩
      rw [List.range_succ_eq_map, List.map_cons, List.map_map]
      congr 1
      show List.map (fun k => base * 2 ^ (b + 1 + k)) (List.range n) =
        List.map ((fun k => base * 2 ^ (b + k)) ∘ Nat.succ) (List.range n)
      refine List.map_congr_left ?_
      intro a ha
      show base * 2 ^ (b + 1 + a) = base * 2 ^ (b + (a + 1))
      have hba : b + 1 + a = b + (a + 1) := by omega
      rw [hba]

/-- The loop started at attempt a never calls func more than the
number of remaining attempts. -/
theorem retry_from_calls_le {E A : Type} (f : Nat → Except E A) (base : Nat) :
    ∀ (fuel maxR a : Nat), maxR + 1 - a ≤ fuel →
      (retry_from f base maxR a).calls ≤ maxR + 1 - a := by
  intro fuel
  induction fuel with
  | zero =>
    intro maxR a h
    rw [retry_from.eq_def, dif_pos (by omega)]
    exact Nat.zero_le _
  | succ fuel ih =>
    intro maxR a h
    by_cases hlt : maxR < a
    · rw [retry_from.eq_def, dif_pos hlt]
      exact Nat.zero_le _
    · rw [retry_from.eq_def, dif_neg hlt]
      cases hfa : f a with
      | ok v =>
        show 1 ≤ maxR + 1 - a
        omega
      | error e =>
        show (if a = maxR then (⟨1, [], some (Except.error e)⟩ : RetryTrace E A)
          else ⟨(retry_from f base maxR (a + 1)).calls + 1,
            base * 2 ^ (a - 1) :: (retry_from f base maxR (a + 1)).sleeps,
            (retry_from f base maxR (a + 1)).result⟩).calls ≤ maxR + 1 - a
        by_cases heq : a = maxR
        · rw [if_pos heq]
          show 1 ≤ maxR + 1 - a
          omega
        · rw [if_neg heq]
          show (retry_from f base maxR (a + 1)).calls + 1 ≤ maxR + 1 - a
          have hr := ih maxR (a + 1) (by omega)
          omega

/-- C4: with max_retries at least 1, retry_with_backoff calls func at
most max_retries times; when the first success is at attempt i within
the budget, it returns that outcome after exactly i calls, having
slept base_delay * 2 ^ (k) after the (k+1)-th failed attempt, so the
delay doubles with each retry; and when every attempt fails it makes
exactly max_retries calls, sleeps after each failure but the last, and
re-raises the outcome of the final attempt. -/
theorem retry_with_backoff_spec {E A : Type} (f : Nat → Except E A)
    (max_retries base_delay : Nat) (hmax : 1 ≤ max_retries) :
    (retry_with_backoff f max_retries base_delay).calls ≤ max_retries ∧
    (∀ i, 1 ≤ i → i ≤ max_retries → is_ok (f i) = true →
      (∀ j, 1 ≤ j → j < i → is_ok (f j) = false) →
      retry_with_backoff f max_retries base_delay =
        ⟨i, (List.range (i - 1)).map (fun k => base_delay * 2 ^ k),
         some (f i)⟩) ∧
    ((∀ j, 1 ≤ j → j ≤ max_retries → is_ok (f j) = false) →
      retry_with_backoff f max_retries base_delay =
        ⟨max_retries,
         (List.range (max_retries - 1)).map (fun k => base_delay * 2 ^ k),
         some (f max_retries)⟩) := by
  refine ⟨?_, ?_, ?_⟩
  · have h1 := retry_from_calls_le f base_delay (max_retries + 1 - 1)
      max_retries 1 (by omega)
    show (retry_from f base_delay max_retries 1).calls ≤ max_retries
    omega
  · intro i hi1 hi2 hok hfail
    have hi : 0 + 1 + (i - 1) = i := by omega
    have happ := retry_from_first_ok f base_delay max_retries (i - 1) 0
      (by omega) (fun j hj1 hj2 => hfail j (by omega) (by omega))
      (by rw [hi]; exact hok)
    show retry_from f base_delay max_retries (0 + 1) = _
    rw [happ, RetryTrace.mk.injEq]
    refine ⟨by omega, by simp, by rw [hi]⟩
  · intro hfail
    have happ := retry_from_all_fail f base_delay max_retries (max_retries - 1)
      0 (by omega) (fun j hj1 hj2 => hfail j (by omega) hj2)
    show retry_from f base_delay max_retries (0 + 1) = _
    rw [happ, RetryTrace.mk.injEq]
    refine ⟨by omega, by simp, rfl⟩

/-- C4 witness: for a function failing once then succeeding, three
allowed attempts and base delay 1 give two calls, one sleep of one
second, and the successful outcome. -/
theorem c4_witness :
    (1 ≤ 3) ∧ retry_with_backoff fEx 3 1 = ⟨2, [1], some (Except.ok 2)⟩ :=
  ⟨by decide,
   (retry_with_backoff_spec fEx 3 1 (by decide)).2.1 2 (by decide) (by decide)
     rfl
     (fun j h1 h2 => by
       have hj : j = 1 := by omega
       rw [hj]
       rfl)⟩
